import Mathlib

/-!
Shallow embedding of the frame-update core of `src/main.cpp` (Meziel/blockgame).

The game state consists of the player's vertical position and velocity, an
on-ground flag, a spawn accumulator, and a list of obstacles ("spikes").
C++ `float` arithmetic is modelled with exact rationals (`ℚ`); all the
constants of the program (`-0.06`, `0.02`, `2.0`, `-0.4`, `-1.2`, `60`)
are exactly representable and the claims under study are arithmetic
relationships, not rounding behaviour.

`update` in the source takes an absolute timestamp and subtracts the stored
`lastFrameTime`; here the already-computed `deltaTime` (called `dt`) is the
parameter, which is how the specification phrases every property.
-/

set_option maxRecDepth 4000

namespace Blockgame

/-- An obstacle (`struct Spike`, main.cpp line 88): horizontal position `x`
and vertical position `y`. -/
structure Spike where
  x : ℚ
  y : ℚ
  deriving DecidableEq

/-- The mutable globals of main.cpp that the frame stepper touches:
`playerY`, `playerVelocity`, `isOnGround`, `spikeSpawnTimer`, `spikes`. -/
structure State where
  playerY : ℚ
  playerVelocity : ℚ
  isOnGround : Bool
  spikeSpawnTimer : ℚ
  spikes : List Spike
  deriving DecidableEq

/-- The constant `gravity = -0.06f` (line 81). -/
def gravity : ℚ := -6/100

/-- The constant `jumpVelocity = 0.02f` (line 82). -/
def jumpVelocity : ℚ := 2/100

/-- The variable `scrollSpeed = 0.02f` (line 76), never reassigned. -/
def scrollSpeed : ℚ := 2/100

/-- The variable `spikeSpawnInterval = 2.0f` (line 78), never reassigned. -/
def spikeSpawnInterval : ℚ := 2

/-- The ground level `-0.4f` hard-coded in the clamp and resets (lines 212, 214, 249). -/
def groundLevel : ℚ := -2/5

/-- The despawn threshold `-1.2f` of the pruning predicate (line 235). -/
def despawnThreshold : ℚ := -6/5

/-- Initial values of the globals: `playerY = 0`, `playerVelocity = 0`,
`isOnGround = true`, `spikeSpawnTimer = 0`, `spikes` empty (lines 71–92). -/
def init : State :=
  { playerY := 0, playerVelocity := 0, isOnGround := true,
    spikeSpawnTimer := 0, spikes := [] }

/-- The key handler `onKeyDown` (lines 191–199): on key code 32, if grounded,
set velocity to `jumpVelocity` and leave the ground; otherwise do nothing. -/
def onKeyDown (keyCode : Int) (s : State) : State :=
  if keyCode = 32 then
    if s.isOnGround then
      { s with playerVelocity := jumpVelocity, isOnGround := false }
    else s
  else s

/-- Player physics of `update` (lines 210–217): integrate gravity into the
velocity scaled by `dt`, add the velocity (not scaled by `dt`) to the
position, and clamp to the ground. -/
def physicsPhase (dt : ℚ) (s : State) : State :=
  let v := s.playerVelocity + gravity * dt
  let y := s.playerY + v
  if y < groundLevel then
    { s with playerY := groundLevel, playerVelocity := 0, isOnGround := true }
  else
    { s with playerY := y, playerVelocity := v }

/-- Spike spawning of `update` (lines 220–225): accumulate `dt`; once the
accumulator reaches `spikeSpawnInterval`, reset it to `0` and append one
spike at `(1.2, -0.4)`. -/
def spawnPhase (dt : ℚ) (s : State) : State :=
  let t := s.spikeSpawnTimer + dt
  if spikeSpawnInterval ≤ t then
    { s with spikeSpawnTimer := 0,
             spikes := s.spikes ++ [{ x := 6/5, y := -2/5 }] }
  else
    { s with spikeSpawnTimer := t }

/-- One spike's leftward motion (line 229): `x -= scrollSpeed * dt * 60`. -/
def moveSpike (dt : ℚ) (sp : Spike) : Spike :=
  { sp with x := sp.x - scrollSpeed * dt * 60 }

/-- Spike motion of `update` (lines 228–230). -/
def movePhase (dt : ℚ) (s : State) : State :=
  { s with spikes := s.spikes.map (moveSpike dt) }

/-- Spike pruning of `update` (lines 233–237): erase every spike with
`x < -1.2` (`std::remove_if`), keeping the rest in order. -/
def prunePhase (s : State) : State :=
  { s with spikes := s.spikes.filter (fun sp => !decide (sp.x < despawnThreshold)) }

/-- The absolute value `fabs` used by the collision test. -/
def fabs (q : ℚ) : ℚ :=
  if q < 0 then -q else q

/-- The per-spike bounding-box overlap test of `update` (lines 241–245):
`fabs (x - 0) < 0.05 + 0.05` and `fabs (y - playerY) < 0.1 + 0.05`. -/
def collides (playerY : ℚ) (sp : Spike) : Bool :=
  let spikeWidth : ℚ := 5/100
  let spikeHeight : ℚ := 1/10
  decide (fabs (sp.x - 0) < spikeWidth + 5/100) &&
    decide (fabs (sp.y - playerY) < spikeHeight + 5/100)

/-- Collision scan of `update` (lines 240–256): walk the surviving spikes;
at the first overlap, reset the player to the ground state, clear the spike
list and `break`. The scan's only effect is this reset, so it is determined
by whether any spike collides; `List.find?` keeps the first-match structure
of the loop. -/
def collisionPhase (s : State) : State :=
  if (s.spikes.find? (collides s.playerY)).isSome then
    { s with playerY := groundLevel, playerVelocity := 0,
             isOnGround := true, spikes := [] }
  else s

/-- One frame of `update` (lines 205–257) with elapsed time `dt`:
physics, then spawn, then motion, then pruning, then the collision scan. -/
def update (dt : ℚ) (s : State) : State :=
  collisionPhase (prunePhase (movePhase dt (spawnPhase dt (physicsPhase dt s))))

/-- An external event: one frame step with elapsed time `dt`, or a key-down
with a key code (the host delivers these between frames). -/
inductive Event where
  | step : ℚ → Event
  | key : Int → Event
  deriving DecidableEq

/-- Apply one event to the state. -/
def Event.apply : Event → State → State
  | .step dt, s => update dt s
  | .key c, s => onKeyDown c s

/-- Whether an event is a frame step with non-negative elapsed time
(key events satisfy this vacuously). -/
def Event.nonnegStep : Event → Bool
  | .step dt => decide (0 ≤ dt)
  | .key _ => true

/-- Run a sequence of events left to right. -/
def run (evs : List Event) (s : State) : State :=
  evs.foldl (fun s e => e.apply s) s

/-- The state of a frame just before the collision scan: physics, spawn,
motion and pruning already applied. -/
def beforeCollision (dt : ℚ) (s : State) : State :=
  prunePhase (movePhase dt (spawnPhase dt (physicsPhase dt s)))

/-- Number of spikes appended by the spawn phase of one frame, measured as
the growth of the spike list across that phase (0 or 1). -/
def spawnsInFrame (dt : ℚ) (s : State) : Nat :=
  (spawnPhase dt (physicsPhase dt s)).spikes.length - (physicsPhase dt s).spikes.length

/-- Total number of spikes spawned over a sequence of frames with the given
elapsed times. -/
def countSpawns : List ℚ → State → Nat
  | [], _ => 0
  | dt :: rest, s => spawnsInFrame dt s + countSpawns rest (update dt s)

/-- One drawing command issued by the renderer: the clear, the player quad
draw at a translation, or a spike draw at a translation. -/
inductive DrawCall where
  | clear : DrawCall
  | playerQuad : ℚ → ℚ → DrawCall
  | spikeTri : ℚ → ℚ → DrawCall
  deriving DecidableEq

/-- The frame renderer (lines 262–286): clears, draws the player translated
to `(0, playerY)`, then draws each spike translated to `(x, y)` in list
order. It only reads the simulation globals and issues GL calls; it assigns
none of them, so it is modelled as returning the untouched state it was
given together with the issued draw calls. -/
def render (s : State) : State × List DrawCall :=
  (s, DrawCall.clear :: DrawCall.playerQuad 0 s.playerY ::
        s.spikes.map (fun sp => DrawCall.spikeTri sp.x sp.y))

/-- A state in which a spike at `x = 0` overlaps the grounded player, so the
collision scan of the next frame fires even with `dt = 0`. -/
def collisionState : State :=
  { playerY := -2/5, playerVelocity := 0, isOnGround := true,
    spikeSpawnTimer := 1/2, spikes := [{ x := 0, y := -2/5 }] }

/-- A state holding exactly one freshly spawned spike at `x = 1.2` with the
player lifted far above any overlap and the spawn accumulator pushed back so
no further spike spawns during the frames under study: it isolates the
trajectory of this single obstacle. -/
def isolatedSpike : State :=
  { playerY := 10, playerVelocity := 0, isOnGround := false,
    spikeSpawnTimer := -10, spikes := [{ x := 6/5, y := -2/5 }] }

/-! ### Helper lemmas about the individual phases -/

theorem update_eq (dt : ℚ) (s : State) :
    update dt s = collisionPhase (beforeCollision dt s) := rfl

theorem physicsPhase_spikes (dt : ℚ) (s : State) :
    (physicsPhase dt s).spikes = s.spikes := by
  simp only [physicsPhase]; split <;> rfl

theorem physicsPhase_spikeSpawnTimer (dt : ℚ) (s : State) :
    (physicsPhase dt s).spikeSpawnTimer = s.spikeSpawnTimer := by
  simp only [physicsPhase]; split <;> rfl

theorem groundLevel_le_physicsPhase (dt : ℚ) (s : State) :
    groundLevel ≤ (physicsPhase dt s).playerY := by
  simp only [physicsPhase]
  split
  · exact le_refl _
  · next h => exact le_of_not_lt h

theorem spawnPhase_playerY (dt : ℚ) (s : State) :
    (spawnPhase dt s).playerY = s.playerY := by
  simp only [spawnPhase]; split <;> rfl

theorem spawnPhase_spikeSpawnTimer (dt : ℚ) (s : State) :
    (spawnPhase dt s).spikeSpawnTimer =
      if spikeSpawnInterval ≤ s.spikeSpawnTimer + dt then 0
      else s.spikeSpawnTimer + dt := by
  simp only [spawnPhase]
  split <;> rfl

theorem spawnPhase_spikes_length (dt : ℚ) (s : State) :
    (spawnPhase dt s).spikes.length ≤ s.spikes.length + 1 := by
  simp only [spawnPhase]
  split
  · simp
  · simp

theorem movePhase_playerY (dt : ℚ) (s : State) :
    (movePhase dt s).playerY = s.playerY := rfl

theorem movePhase_spikeSpawnTimer (dt : ℚ) (s : State) :
    (movePhase dt s).spikeSpawnTimer = s.spikeSpawnTimer := rfl

theorem prunePhase_playerY (s : State) :
    (prunePhase s).playerY = s.playerY := rfl

theorem prunePhase_spikeSpawnTimer (s : State) :
    (prunePhase s).spikeSpawnTimer = s.spikeSpawnTimer := rfl

theorem collisionPhase_spikeSpawnTimer (s : State) :
    (collisionPhase s).spikeSpawnTimer = s.spikeSpawnTimer := by
  simp only [collisionPhase]; split <;> rfl

theorem groundLevel_le_beforeCollision (dt : ℚ) (s : State) :
    groundLevel ≤ (beforeCollision dt s).playerY := by
  unfold beforeCollision
  rw [prunePhase_playerY, movePhase_playerY, spawnPhase_playerY]
  exact groundLevel_le_physicsPhase dt s

theorem groundLevel_le_update (dt : ℚ) (s : State) :
    groundLevel ≤ (update dt s).playerY := by
  rw [update_eq]
  simp only [collisionPhase]
  split
  · exact le_refl _
  · exact groundLevel_le_beforeCollision dt s

theorem run_append_single (evs : List Event) (e : Event) (s : State) :
    run (evs ++ [e]) s = e.apply (run evs s) := by
  simp [run, List.foldl_append]

/-! ### Concrete frame evaluations -/

/-- The state reached from `init` after one `dt = 1` frame. -/
def frame1State : State :=
  { playerY := -3/50, playerVelocity := -3/50, isOnGround := true,
    spikeSpawnTimer := 1, spikes := [] }

/-- The state reached from `init` after two `dt = 1` frames: the spawn
timer fired and the new spike already scrolled to `x = 0`. -/
def frame2State : State :=
  { playerY := -9/50, playerVelocity := -3/25, isOnGround := true,
    spikeSpawnTimer := 0, spikes := [{ x := 0, y := -2/5 }] }

/-- The state reached from `init` after three `dt = 1` frames. -/
def frame3State : State :=
  { playerY := -9/25, playerVelocity := -9/50, isOnGround := true,
    spikeSpawnTimer := 1, spikes := [{ x := -6/5, y := -2/5 }] }

theorem update_init_eval : update 1 init = frame1State := by
  norm_num [update, physicsPhase, spawnPhase, movePhase, prunePhase, collisionPhase,
    init, gravity, groundLevel, spikeSpawnInterval, collides, moveSpike, scrollSpeed,
    despawnThreshold, fabs, frame1State]

theorem update_frame1_eval : update 1 frame1State = frame2State := by
  norm_num [update, physicsPhase, spawnPhase, movePhase, prunePhase, collisionPhase,
    gravity, groundLevel, spikeSpawnInterval, collides, moveSpike, scrollSpeed,
    despawnThreshold, fabs, frame1State, frame2State, List.filter, List.find?]

theorem update_frame2_eval : update 1 frame2State = frame3State := by
  norm_num [update, physicsPhase, spawnPhase, movePhase, prunePhase, collisionPhase,
    gravity, groundLevel, spikeSpawnInterval, collides, moveSpike, scrollSpeed,
    despawnThreshold, fabs, frame2State, frame3State, List.filter, List.find?]

/-- The `isolatedSpike` obstacle after its first advance: at `x = 0`. -/
def iso1State : State :=
  { playerY := 497/50, playerVelocity := -3/50, isOnGround := false,
    spikeSpawnTimer := -9, spikes := [{ x := 0, y := -2/5 }] }

/-- The `isolatedSpike` obstacle after its second advance: at `x = -1.2`,
still not strictly below the threshold. -/
def iso2State : State :=
  { playerY := 491/50, playerVelocity := -3/25, isOnGround := false,
    spikeSpawnTimer := -8, spikes := [{ x := -6/5, y := -2/5 }] }

/-- After the third advance the obstacle reaches `x = -2.4` and is pruned. -/
def iso3State : State :=
  { playerY := 241/25, playerVelocity := -9/50, isOnGround := false,
    spikeSpawnTimer := -7, spikes := [] }

theorem update_iso_eval : update 1 isolatedSpike = iso1State := by
  norm_num [update, physicsPhase, spawnPhase, movePhase, prunePhase, collisionPhase,
    gravity, groundLevel, spikeSpawnInterval, collides, moveSpike, scrollSpeed,
    despawnThreshold, fabs, isolatedSpike, iso1State, List.filter, List.find?]

theorem update_iso1_eval : update 1 iso1State = iso2State := by
  norm_num [update, physicsPhase, spawnPhase, movePhase, prunePhase, collisionPhase,
    gravity, groundLevel, spikeSpawnInterval, collides, moveSpike, scrollSpeed,
    despawnThreshold, fabs, iso1State, iso2State, List.filter, List.find?]

theorem update_iso2_eval : update 1 iso2State = iso3State := by
  norm_num [update, physicsPhase, spawnPhase, movePhase, prunePhase, collisionPhase,
    gravity, groundLevel, spikeSpawnInterval, collides, moveSpike, scrollSpeed,
    despawnThreshold, fabs, iso2State, iso3State, List.filter, List.find?]

theorem beforeCollision_collisionState_eval :
    beforeCollision 0 collisionState =
      { playerY := -2/5, playerVelocity := 0, isOnGround := true,
        spikeSpawnTimer := 1/2, spikes := [{ x := 0, y := -2/5 }] } := by
  norm_num [beforeCollision, physicsPhase, spawnPhase, movePhase, prunePhase,
    gravity, groundLevel, spikeSpawnInterval, moveSpike, scrollSpeed,
    despawnThreshold, collisionState, List.filter]

/-- The overlap in `collisionState` survives to the collision scan of a
`dt = 0` frame. -/
theorem collisionState_overlap :
    ∃ sp ∈ (beforeCollision 0 collisionState).spikes,
      collides (beforeCollision 0 collisionState).playerY sp = true := by
  rw [beforeCollision_collisionState_eval]
  exact ⟨{ x := 0, y := -2/5 }, by simp, by norm_num [collides, fabs]⟩

/-- Spikes surviving a whole frame already survived the pruning phase. -/
theorem mem_spikes_update {dt : ℚ} {s : State} {sp : Spike}
    (h : sp ∈ (update dt s).spikes) : sp ∈ (beforeCollision dt s).spikes := by
  rw [update_eq] at h
  revert h
  simp only [collisionPhase]
  split
  · intro h
    exact absurd h (List.not_mem_nil sp)
  · exact id

/-- A list whose spikes were filtered against the prune predicate and out of
which one was dropped: used to instantiate the pruning claim concretely. -/
def pruneExample : State :=
  { playerY := 0, playerVelocity := 0, isOnGround := true,
    spikeSpawnTimer := 0, spikes := [{ x := -2, y := 0 }, { x := 1, y := 0 }] }

theorem update_pruneExample_eval :
    update 0 pruneExample =
      { playerY := 0, playerVelocity := 0, isOnGround := true,
        spikeSpawnTimer := 0, spikes := [{ x := 1, y := 0 }] } := by
  norm_num [update, physicsPhase, spawnPhase, movePhase, prunePhase, collisionPhase,
    gravity, groundLevel, spikeSpawnInterval, collides, moveSpike, scrollSpeed,
    despawnThreshold, fabs, pruneExample, List.filter, List.find?]

/-! ### The claims -/

/-- C1: for every sequence of frame steps with non-negative elapsed times,
with jump commands interleaved arbitrarily, the player's vertical position at
the end of each frame — after any event sequence ending in a frame step — is
never below the ground level `-0.4`. -/
theorem player_never_below_ground (s : State) (evs : List Event) (dt : ℚ)
    (hnn : ∀ e ∈ evs ++ [Event.step dt], e.nonnegStep = true) :
    groundLevel ≤ (run (evs ++ [Event.step dt]) s).playerY := by
  rw [run_append_single]
  exact groundLevel_le_update dt (run evs s)

theorem player_never_below_ground_witness :
    (∀ e ∈ [Event.key 32, Event.step 1] ++ [Event.step 2], e.nonnegStep = true) ∧
    groundLevel ≤ (run ([Event.key 32, Event.step 1] ++ [Event.step 2]) init).playerY := by
  have h : ∀ e ∈ [Event.key 32, Event.step 1] ++ [Event.step 2], e.nonnegStep = true := by
    intro e he
    simp only [List.cons_append, List.nil_append, List.mem_cons,
      List.not_mem_nil, or_false] at he
    rcases he with h | h | h <;> subst h <;> norm_num [Event.nonnegStep]
  exact ⟨h, player_never_below_ground init [Event.key 32, Event.step 1] 2 h⟩

/-- C2: if any surviving spike overlaps the player during the frame's
collision scan, the frame ends with the player reset to the ground state and
the spike list cleared; moreover the scan's outcome is already decided at the
first overlapping spike — the spikes after it contribute nothing. -/
theorem collision_resets_frame (dt : ℚ) (s : State)
    (hc : ∃ sp ∈ (beforeCollision dt s).spikes,
        collides (beforeCollision dt s).playerY sp = true) :
    ((update dt s).playerY = groundLevel ∧ (update dt s).playerVelocity = 0 ∧
      (update dt s).isOnGround = true ∧ (update dt s).spikes = []) ∧
    ∀ (t : State) (l₁ l₂ : List Spike) (sp : Spike),
      t.spikes = l₁ ++ sp :: l₂ → collides t.playerY sp = true →
      collisionPhase t = collisionPhase { t with spikes := l₁ ++ [sp] } := by
  constructor
  · obtain ⟨sp, hm, hcol⟩ := hc
    have hsome : ((beforeCollision dt s).spikes.find?
        (collides (beforeCollision dt s).playerY)).isSome = true := by
      rw [List.find?_isSome]
      exact ⟨sp, hm, hcol⟩
    rw [update_eq]
    unfold collisionPhase
    rw [if_pos hsome]
    exact ⟨rfl, rfl, rfl, rfl⟩
  · intro t l₁ l₂ sp hsp hcol
    have h1 : (t.spikes.find? (collides t.playerY)).isSome = true := by
      rw [List.find?_isSome]
      exact ⟨sp, by rw [hsp]; simp, hcol⟩
    have h2 : (({ t with spikes := l₁ ++ [sp] } : State).spikes.find?
        (collides ({ t with spikes := l₁ ++ [sp] } : State).playerY)).isSome = true := by
      show ((l₁ ++ [sp]).find? (collides t.playerY)).isSome = true
      rw [List.find?_isSome]
      exact ⟨sp, by simp, hcol⟩
    unfold collisionPhase
    rw [if_pos h1, if_pos h2]

theorem collision_resets_frame_witness :
    (∃ sp ∈ (beforeCollision 0 collisionState).spikes,
        collides (beforeCollision 0 collisionState).playerY sp = true) ∧
    (update 0 collisionState).playerY = groundLevel ∧
    (update 0 collisionState).playerVelocity = 0 ∧
    (update 0 collisionState).isOnGround = true ∧
    (update 0 collisionState).spikes = [] :=
  ⟨collisionState_overlap,
    (collision_resets_frame 0 collisionState collisionState_overlap).1.1,
    (collision_resets_frame 0 collisionState collisionState_overlap).1.2.1,
    (collision_resets_frame 0 collisionState collisionState_overlap).1.2.2.1,
    (collision_resets_frame 0 collisionState collisionState_overlap).1.2.2.2⟩

/-- C3 (counterexample): splitting 4 seconds of elapsed time as `dt = 3` then
`dt = 1` crosses the 2-second spawn interval twice (4 = 2 × 2) yet spawns
only one obstacle: the spawn accumulator is reset to `0` at a spawn, so the
full second remaining past the interval in the first frame is dropped rather
than carried. -/
theorem spawn_drops_remainder_counterexample :
    countSpawns [3, 1] init = 1 ∧ (3 + 1 : ℚ) = 2 * spikeSpawnInterval := by
  constructor
  · norm_num [countSpawns, spawnsInFrame, update, physicsPhase, spawnPhase, movePhase,
      prunePhase, collisionPhase, init, gravity, groundLevel, spikeSpawnInterval,
      collides, moveSpike, scrollSpeed, despawnThreshold, fabs, List.filter, List.find?]
  · norm_num [spikeSpawnInterval]

/-- C3 (amended): exactly one obstacle is spawned in each frame at which the
accumulated timer reaches the spawn interval, and none otherwise; at a spawn
the accumulator is reset to `0`, discarding the time in excess of the
interval, so across a frame the accumulator becomes `0` if it crossed the
interval and grows by `dt` otherwise. -/
theorem spawn_cadence_resets_accumulator (dt : ℚ) (s : State) :
    (spikeSpawnInterval ≤ s.spikeSpawnTimer + dt →
        (spawnPhase dt s).spikes.length = s.spikes.length + 1 ∧
        (spawnPhase dt s).spikeSpawnTimer = 0) ∧
    (s.spikeSpawnTimer + dt < spikeSpawnInterval →
        (spawnPhase dt s).spikes = s.spikes ∧
        (spawnPhase dt s).spikeSpawnTimer = s.spikeSpawnTimer + dt) ∧
    (update dt s).spikeSpawnTimer =
      (if spikeSpawnInterval ≤ s.spikeSpawnTimer + dt then 0
       else s.spikeSpawnTimer + dt) := by
  refine ⟨?_, ?_, ?_⟩
  · intro h
    simp only [spawnPhase]
    rw [if_pos h]
    exact ⟨by simp, rfl⟩
  · intro h
    simp only [spawnPhase]
    rw [if_neg (not_le.mpr h)]
    exact ⟨rfl, rfl⟩
  · rw [update_eq]
    unfold beforeCollision
    rw [collisionPhase_spikeSpawnTimer, prunePhase_spikeSpawnTimer,
      movePhase_spikeSpawnTimer, spawnPhase_spikeSpawnTimer,
      physicsPhase_spikeSpawnTimer]

theorem spawn_cadence_resets_accumulator_witness :
    spikeSpawnInterval ≤ init.spikeSpawnTimer + 3 ∧
    (spawnPhase 3 init).spikes.length = init.spikes.length + 1 ∧
    (spawnPhase 3 init).spikeSpawnTimer = 0 ∧
    (update 3 init).spikeSpawnTimer = 0 := by
  have h : spikeSpawnInterval ≤ init.spikeSpawnTimer + 3 := by
    norm_num [init, spikeSpawnInterval]
  obtain ⟨h1, h2⟩ := (spawn_cadence_resets_accumulator 3 init).1 h
  refine ⟨h, h1, h2, ?_⟩
  rw [(spawn_cadence_resets_accumulator 3 init).2.2, if_pos h]

/-- C4: pruning keeps exactly the spikes at or above the despawn threshold
`-1.2`, in their original relative order (a sublist); every spike it removes
is strictly below the threshold; and every spike present after a completed
frame is at or above the threshold. -/
theorem prune_exactness (t s : State) (dt : ℚ) :
    (prunePhase t).spikes = t.spikes.filter (fun sp => decide (despawnThreshold ≤ sp.x)) ∧
    (prunePhase t).spikes.Sublist t.spikes ∧
    (∀ sp ∈ t.spikes, sp ∉ (prunePhase t).spikes → sp.x < despawnThreshold) ∧
    (∀ sp ∈ (update dt s).spikes, despawnThreshold ≤ sp.x) := by
  refine ⟨?_, ?_, ?_, ?_⟩
  · simp only [prunePhase]
    exact List.filter_congr (fun sp _ => by
      by_cases h : sp.x < despawnThreshold
      · simp [h, not_le.mpr h]
      · simp [h, not_lt.mp h])
  · simp only [prunePhase]
    exact List.filter_sublist t.spikes
  · intro sp hmem hnot
    by_contra hnlt
    apply hnot
    simp only [prunePhase, List.mem_filter]
    exact ⟨hmem, by simp [hnlt]⟩
  · intro sp hmem
    have h1 : sp ∈ (beforeCollision dt s).spikes := mem_spikes_update hmem
    unfold beforeCollision at h1
    simp only [prunePhase, List.mem_filter, Bool.not_eq_true', decide_eq_false_iff_not,
      not_lt] at h1
    exact h1.2

theorem prune_exactness_witness :
    ({ x := -2, y := 0 } : Spike) ∈ pruneExample.spikes ∧
    ({ x := -2, y := 0 } : Spike) ∉ (prunePhase pruneExample).spikes ∧
    ({ x := -2, y := 0 } : Spike).x < despawnThreshold ∧
    ({ x := 1, y := 0 } : Spike) ∈ (update 0 pruneExample).spikes ∧
    despawnThreshold ≤ ({ x := 1, y := 0 } : Spike).x := by
  have hmem : ({ x := -2, y := 0 } : Spike) ∈ pruneExample.spikes := by
    simp [pruneExample]
  have hnot : ({ x := -2, y := 0 } : Spike) ∉ (prunePhase pruneExample).spikes := by
    norm_num [prunePhase, pruneExample, despawnThreshold, List.filter]
  have hmem2 : ({ x := 1, y := 0 } : Spike) ∈ (update 0 pruneExample).spikes := by
    rw [update_pruneExample_eval]
    simp
  exact ⟨hmem, hnot, (prune_exactness pruneExample pruneExample 0).2.2.1 _ hmem hnot,
    hmem2, (prune_exactness pruneExample pruneExample 0).2.2.2 _ hmem2⟩

/-- C5: the jump command (key code 32) while grounded sets the velocity to
the jump constant and clears the on-ground flag, leaving every other field
unchanged; while airborne it leaves the whole state unchanged. -/
theorem jump_semantics (s : State) :
    (s.isOnGround = true →
        onKeyDown 32 s = { s with playerVelocity := jumpVelocity, isOnGround := false }) ∧
    (s.isOnGround = false → onKeyDown 32 s = s) := by
  constructor
  · intro h
    simp [onKeyDown, h]
  · intro h
    simp [onKeyDown, h]

theorem jump_semantics_witness :
    init.isOnGround = true ∧
    onKeyDown 32 init = { init with playerVelocity := jumpVelocity, isOnGround := false } ∧
    isolatedSpike.isOnGround = false ∧
    onKeyDown 32 isolatedSpike = isolatedSpike :=
  ⟨rfl, (jump_semantics init).1 rfl, rfl, (jump_semantics isolatedSpike).2 rfl⟩

/-- C6: from the initial grounded state with no jump command, three `dt = 1`
frames accumulate a velocity of `3 * gravity`; the position strictly
decreases each frame and has not yet reached the clamp at `groundLevel`;
each frame first adds `gravity * dt` to the velocity and then adds the new
velocity itself (not scaled by `dt`) to the position. -/
theorem three_frames_of_gravity :
    (update 1 (update 1 (update 1 init))).playerVelocity = 3 * gravity ∧
    (update 1 init).playerY < init.playerY ∧
    (update 1 (update 1 init)).playerY < (update 1 init).playerY ∧
    (update 1 (update 1 (update 1 init))).playerY < (update 1 (update 1 init)).playerY ∧
    groundLevel < (update 1 (update 1 (update 1 init))).playerY ∧
    (update 1 init).playerVelocity = init.playerVelocity + gravity * 1 ∧
    (update 1 init).playerY = init.playerY + (update 1 init).playerVelocity ∧
    (update 1 (update 1 init)).playerVelocity = (update 1 init).playerVelocity + gravity * 1 ∧
    (update 1 (update 1 init)).playerY =
      (update 1 init).playerY + (update 1 (update 1 init)).playerVelocity ∧
    (update 1 (update 1 (update 1 init))).playerVelocity =
      (update 1 (update 1 init)).playerVelocity + gravity * 1 ∧
    (update 1 (update 1 (update 1 init))).playerY =
      (update 1 (update 1 init)).playerY + (update 1 (update 1 (update 1 init))).playerVelocity := by
  rw [update_init_eval, update_frame1_eval, update_frame2_eval]
  norm_num [frame1State, frame2State, frame3State, init, gravity, groundLevel]

/-- C7 (counterexample): an obstacle at `x = 1.2` advanced by one `dt = 1`
frame lands at `x = 1.2 - 0.02 * 1 * 60 = 0`, which is not below the `-1.2`
despawn threshold: the obstacle list after that frame still contains it, so
it is not pruned after the first frame in which it is advanced. -/
theorem spike_not_pruned_first_frame :
    (update 1 isolatedSpike).spikes = [{ x := 0, y := -2/5 }] ∧
    (update 1 isolatedSpike).spikes ≠ [] := by
  rw [update_iso_eval]
  refine ⟨rfl, ?_⟩
  norm_num [iso1State]

/-- C7 (amended): the obstacle's `x` decreases by `0.02 * 1 * 60 = 1.2` each
`dt = 1` frame, so from `x = 1.2` it reaches `0`, then `-1.2` (still kept,
the prune test being strict), and is pruned only after its third advance,
when it reaches `-2.4 < -1.2`. -/
theorem spike_pruned_after_third_advance :
    scrollSpeed * 1 * 60 = 6/5 ∧
    (update 1 isolatedSpike).spikes = [{ x := 0, y := -2/5 }] ∧
    (update 1 (update 1 isolatedSpike)).spikes = [{ x := -6/5, y := -2/5 }] ∧
    (update 1 (update 1 (update 1 isolatedSpike))).spikes = [] := by
  rw [update_iso_eval, update_iso1_eval, update_iso2_eval]
  norm_num [scrollSpeed, iso1State, iso2State, iso3State]

/-- C8: the renderer returns the world state unchanged — every simulation
field (position, velocity, on-ground flag, spike list, spawn timer) is
identical before and after rendering. -/
theorem render_does_not_mutate (s : State) :
    (render s).1 = s ∧
    (render s).1.playerY = s.playerY ∧
    (render s).1.playerVelocity = s.playerVelocity ∧
    (render s).1.isOnGround = s.isOnGround ∧
    (render s).1.spikes = s.spikes ∧
    (render s).1.spikeSpawnTimer = s.spikeSpawnTimer :=
  ⟨rfl, rfl, rfl, rfl, rfl, rfl⟩

/-- C9: a single frame appends at most one obstacle, whatever the
non-negative elapsed time — even a `dt` spanning several whole spawn
intervals adds only one spike that frame. -/
theorem at_most_one_spawn_per_frame (dt : ℚ) (s : State) (h : 0 ≤ dt) :
    (update dt s).spikes.length ≤ s.spikes.length + 1 := by
  have h1 : (update dt s).spikes.length ≤ (beforeCollision dt s).spikes.length := by
    rw [update_eq]
    simp only [collisionPhase]
    split
    · simp
    · exact le_refl _
  have h2 : (beforeCollision dt s).spikes.length ≤
      (movePhase dt (spawnPhase dt (physicsPhase dt s))).spikes.length := by
    unfold beforeCollision prunePhase
    exact List.length_filter_le _ _
  have h3 : (movePhase dt (spawnPhase dt (physicsPhase dt s))).spikes.length =
      (spawnPhase dt (physicsPhase dt s)).spikes.length := by
    simp [movePhase]
  have h4 := spawnPhase_spikes_length dt (physicsPhase dt s)
  rw [physicsPhase_spikes] at h4
  omega

theorem at_most_one_spawn_per_frame_witness :
    (0 : ℚ) ≤ 5 ∧ (update 5 init).spikes.length ≤ init.spikes.length + 1 :=
  ⟨by norm_num, at_most_one_spawn_per_frame 5 init (by norm_num)⟩

/-- C10: in a frame whose collision scan fires, the spawn accumulator keeps
the value the spawn phase gave it — the collision reset rewrites only the
player fields and the obstacle list, never the timer. -/
theorem collision_keeps_spawn_timer (dt : ℚ) (s : State)
    (hc : ∃ sp ∈ (beforeCollision dt s).spikes,
        collides (beforeCollision dt s).playerY sp = true) :
    (update dt s).spikeSpawnTimer =
      (spawnPhase dt (physicsPhase dt s)).spikeSpawnTimer := by
  rw [update_eq, collisionPhase_spikeSpawnTimer]
  unfold beforeCollision
  rw [prunePhase_spikeSpawnTimer, movePhase_spikeSpawnTimer]

theorem collision_keeps_spawn_timer_witness :
    (∃ sp ∈ (beforeCollision 0 collisionState).spikes,
        collides (beforeCollision 0 collisionState).playerY sp = true) ∧
    (update 0 collisionState).spikeSpawnTimer =
      (spawnPhase 0 (physicsPhase 0 collisionState)).spikeSpawnTimer :=
  ⟨collisionState_overlap,
    collision_keeps_spawn_timer 0 collisionState collisionState_overlap⟩

end Blockgame
